import Mathlib

/-!
Formal model of `src/backend_app.py`: a Flask application exposing a single
POST `/chat` endpoint that relays a user message to the Gemini
generative-language API and returns the generated text.

Modelling conventions:
- JSON values are the inductive `JValue`; numbers are modelled as integers
  (no claim involves non-integral numbers). An `obj` models a parsed Python
  dict, so its keys are assumed unique (`json.loads` deduplicates keys).
- Python exceptions are modelled as `Except String`, the `String` being the
  `str(e)` text observed by an `except ... as e` clause. Exception texts
  follow CPython; their exact wording is cosmetic for every claim below.
- The outcome of the outbound call (`requests.post`, `raise_for_status`,
  `response.json()`) is an oracle parameter `VendorOutcome`, since the vendor
  is outside the program.
- Functions return, next to their Python return value, the list of outbound
  HTTP calls they perform, so that claims about outbound traffic are statable.
-/

namespace AgastyaAI

/-- A JSON value as produced by Python's `json` module (dict, list, str, int,
bool, None). Numbers are modelled as integers. -/
inductive JValue where
  | null : JValue
  | bool (b : Bool) : JValue
  | num (n : Int) : JValue
  | str (s : String) : JValue
  | arr (elems : List JValue) : JValue
  | obj (fields : List (String × JValue)) : JValue

/-- Python truthiness `bool(v)` of a JSON value: None, False, 0, the empty
string, the empty list and the empty dict are falsy. -/
def py_truthy : JValue → Bool
  | .null => false
  | .bool b => b
  | .num n => n != 0
  | .str s => s != ""
  | .arr xs => !xs.isEmpty
  | .obj fs => !fs.isEmpty

/-- `d.get(k)`: lookup in a parsed JSON object (a Python dict with string
keys); `none` models Python `None` for an absent key. -/
def pyGet : List (String × JValue) → String → Option JValue
  | [], _ => none
  | (k, v) :: rest, key => if k == key then some v else pyGet rest key

/-- Python truthiness of a `d.get(k)` result: `None` (absent key) is falsy. -/
def py_truthy_opt : Option JValue → Bool
  | none => false
  | some v => py_truthy v

/-- Python truthiness of an `os.getenv` result: `None` (unset variable) and
the empty string are falsy. -/
def py_truthy_key : Option String → Bool
  | none => false
  | some s => s != ""

/-- The `str(e)` text of a Python exception caught by an `except` clause. -/
abbrev PyEx := String

/-- Python equality of the string `k` with a JSON value: a string equals only
an equal string (Python defines no cross-type equality between `str` and the
other JSON types). -/
def py_str_eq (k : String) : JValue → Bool
  | .str s => k == s
  | _ => false

/-- Python membership `k in v` for a string `k`: key containment on a dict,
element membership on a list, substring test on a string; TypeError on
non-iterable values. -/
def py_contains (k : String) : JValue → Except PyEx Bool
  | .obj fs => .ok (pyGet fs k).isSome
  | .arr xs => .ok (xs.any (py_str_eq k))
  | .str s => .ok (decide ((s.splitOn k).length > 1))
  | .num _ => .error "argument of type 'int' is not iterable"
  | .bool _ => .error "argument of type 'bool' is not iterable"
  | .null => .error "argument of type 'NoneType' is not iterable"

/-- Python subscript `v[k]` with a string index: dict lookup (KeyError when
the key is absent, whose `str` is the quoted key), TypeError on lists and
strings, not subscriptable otherwise. -/
def py_index_str (v : JValue) (k : String) : Except PyEx JValue :=
  match v with
  | .obj fs =>
    match pyGet fs k with
    | some x => .ok x
    | none => .error ("'" ++ k ++ "'")
  | .arr _ => .error "list indices must be integers or slices, not str"
  | .str _ => .error "string indices must be integers"
  | .num _ => .error "'int' object is not subscriptable"
  | .bool _ => .error "'bool' object is not subscriptable"
  | .null => .error "'NoneType' object is not subscriptable"

/-- Python subscript `v[0]`: first element of a list, first character of a
string (a one-character string), KeyError 0 on a dict with string keys, not
subscriptable otherwise. -/
def py_index_zero (v : JValue) : Except PyEx JValue :=
  match v with
  | .arr [] => .error "list index out of range"
  | .arr (x :: _) => .ok x
  | .str s => if s == "" then .error "string index out of range" else .ok (.str (s.take 1))
  | .obj _ => .error "0"
  | .num _ => .error "'int' object is not subscriptable"
  | .bool _ => .error "'bool' object is not subscriptable"
  | .null => .error "'NoneType' object is not subscriptable"

/-- Python `len(v)`: defined on strings, lists and dicts; TypeError otherwise. -/
def py_len (v : JValue) : Except PyEx Nat :=
  match v with
  | .str s => .ok s.length
  | .arr xs => .ok xs.length
  | .obj fs => .ok fs.length
  | .num _ => .error "object of type 'int' has no len()"
  | .bool _ => .error "object of type 'bool' has no len()"
  | .null => .error "object of type 'NoneType' has no len()"

/-- The condition of lines 62-64 of `backend_app.py`, evaluated left to right
with Python short-circuit `and`:
`result and "candidates" in result and len(result["candidates"]) > 0 and
"content" in result["candidates"][0] and
"parts" in result["candidates"][0]["content"] and
len(result["candidates"][0]["content"]["parts"]) > 0`.
Any operand may raise; a raised exception propagates to the enclosing `try`. -/
def extract_cond (result : JValue) : Except PyEx Bool :=
  if py_truthy result = false then .ok false else
  match py_contains "candidates" result with
  | .error e => .error e
  | .ok false => .ok false
  | .ok true =>
  match py_index_str result "candidates" with
  | .error e => .error e
  | .ok cands =>
  match py_len cands with
  | .error e => .error e
  | .ok n =>
  if 0 < n then
    match py_index_zero cands with
    | .error e => .error e
    | .ok c0 =>
    match py_contains "content" c0 with
    | .error e => .error e
    | .ok false => .ok false
    | .ok true =>
    match py_index_str c0 "content" with
    | .error e => .error e
    | .ok content =>
    match py_contains "parts" content with
    | .error e => .error e
    | .ok false => .ok false
    | .ok true =>
    match py_index_str content "parts" with
    | .error e => .error e
    | .ok parts =>
    match py_len parts with
    | .error e => .error e
    | .ok m => .ok (decide (0 < m))
  else .ok false

/-- Line 65 of `backend_app.py`:
`result["candidates"][0]["content"]["parts"][0]["text"]`, each subscript able
to raise. -/
def extract_value (result : JValue) : Except PyEx JValue :=
  match py_index_str result "candidates" with
  | .error e => .error e
  | .ok cands =>
  match py_index_zero cands with
  | .error e => .error e
  | .ok c0 =>
  match py_index_str c0 "content" with
  | .error e => .error e
  | .ok content =>
  match py_index_str content "parts" with
  | .error e => .error e
  | .ok parts =>
  match py_index_zero parts with
  | .error e => .error e
  | .ok p0 => py_index_str p0 "text"

/-- Lines 62-68 of `backend_app.py`: the shape test, then either the
extracted text or the fixed fallback string; `.error` is an exception
reaching the `except` clauses of the enclosing `try`. -/
def process_result (result : JValue) : Except PyEx JValue :=
  match extract_cond result with
  | .error e => .error e
  | .ok true => extract_value result
  | .ok false =>
    .ok (.str "Sorry, I couldn't get a valid response from the AI. Please try again.")

/-- The observable outcome of the outbound call of lines 53-60
(`requests.post`, `response.raise_for_status()`, `response.json()`): an
exception from the transport layer or from the HTTP status check
(`requests.exceptions.RequestException`, carrying its message text), a
failure to decode the body as JSON (`json.JSONDecodeError`), or a parsed
JSON body. -/
inductive VendorOutcome where
  | requestException (msg : String) : VendorOutcome
  | jsonDecodeError : VendorOutcome
  | jsonBody (result : JValue) : VendorOutcome

/-- One outbound HTTP POST: its URL and its JSON payload (the `params` and
`headers` of the call are fixed literals and the key, not needed by any
claim). -/
structure OutboundRequest where
  url : String
  payload : JValue

/-- The module-level configuration bindings of `backend_app.py`:
`GEMINI_API_KEY = os.getenv("GEMINI_API_KEY")` (None when unset) and the
constant `GEMINI_API_URL`. The handler reads them and never assigns them. -/
structure ModuleEnv where
  GEMINI_API_KEY : Option String
  GEMINI_API_URL : String

/-- Line 22: the fixed Gemini API endpoint URL. -/
def GEMINI_API_URL : String :=
  "https://generativelanguage.googleapis.com/v1beta/models/gemini-2.0-flash:generateContent"

/-- The module environment as the module builds it: the key from the
environment variable, the URL the fixed constant. -/
def module_env (key : Option String) : ModuleEnv :=
  { GEMINI_API_KEY := key, GEMINI_API_URL := GEMINI_API_URL }

/-- Lines 44-51: the outbound JSON payload
`{"contents": [{"role": "user", "parts": [{"text": prompt}]}]}`. The prompt
is a `JValue`: Python does not enforce the `str` type hint, and the endpoint
passes through whatever truthy value the request carried. -/
def gemini_payload (prompt : JValue) : JValue :=
  .obj [("contents", .arr [ .obj [("role", .str "user"),
    ("parts", .arr [ .obj [("text", prompt)] ])] ])]

/-- Lines 25-78, `get_gemini_response`: the value returned to the caller
(first component) and the list of outbound HTTP calls performed (second
component). When the key is falsy (unset or empty) the function returns the
configuration error without calling out; otherwise exactly one call is made
and its outcome is dispatched: `RequestException` and `json.JSONDecodeError`
map to their handler strings, a parsed body goes through the shape test and
extraction, whose own exceptions the final `except Exception` clause turns
into a string. -/
def get_gemini_response (env : ModuleEnv) (prompt : JValue) (vendor : VendorOutcome) :
    JValue × List OutboundRequest :=
  if py_truthy_key env.GEMINI_API_KEY = false then
    (.str "Error: Backend configuration issue. Gemini API Key is missing.", [])
  else
    let sent : List OutboundRequest := [⟨env.GEMINI_API_URL, gemini_payload prompt⟩]
    match vendor with
    | .requestException e =>
      (.str ("An error occurred while connecting to the AI service: " ++ e), sent)
    | .jsonDecodeError =>
      (.str "An error occurred while processing the AI's response.", sent)
    | .jsonBody result =>
      match process_result result with
      | .ok v => (v, sent)
      | .error e => (.str ("An unexpected error occurred: " ++ e), sent)

/-- What the `/chat` handler hands back to Flask: a `jsonify` response with
its status code, Flask's own 400 error page raised by `request.get_json()`
on an unparseable body, or a 500 from an exception the handler does not
catch (`data.get` on a non-dict body raises `AttributeError`). -/
inductive HttpResponse where
  | json (status : Nat) (body : JValue) : HttpResponse
  | flaskBadRequest : HttpResponse
  | internalError : HttpResponse

/-- An inbound POST `/chat` request as the handler observes it:
`request.is_json` (the Content-Type declares JSON) and the result of
`request.get_json()` — `some` the parsed body when it parses, `none` when
parsing fails (in which case `get_json` raises and Flask answers with its
default 400 page). -/
structure ChatRequest where
  is_json : Bool
  body : Option JValue

/-- Lines 81-100, the `chat` handler: validates the request, relays the
message, and wraps the relay's answer; paired with the list of outbound
calls performed. -/
def chat (env : ModuleEnv) (req : ChatRequest) (vendor : VendorOutcome) :
    HttpResponse × List OutboundRequest :=
  if req.is_json = false then
    (.json 400 (.obj [("error", .str "Request must be JSON")]), [])
  else
    match req.body with
    | none => (.flaskBadRequest, [])
    | some (.obj fs) =>
      match pyGet fs "message" with
      | none =>
        (.json 400 (.obj [("error", .str "Missing 'message' in request body")]), [])
      | some m =>
        if py_truthy m = false then
          (.json 400 (.obj [("error", .str "Missing 'message' in request body")]), [])
        else
          let r := get_gemini_response env m vendor
          (.json 200 (.obj [("response", r.1)]), r.2)
    | some _ => (.internalError, [])

/-- One request handled against the module state: the handler reads the
bindings and assigns none of them (the source contains no assignment to any
module-level name inside `chat` or `get_gemini_response`), so the state
passes through unchanged. -/
def chat_step (st : ModuleEnv) (req : ChatRequest) (vendor : VendorOutcome) :
    ModuleEnv × (HttpResponse × List OutboundRequest) :=
  (st, chat st req vendor)

/-- A dict in which a lookup succeeds is non-empty (so it is truthy). -/
theorem pyGet_ne_nil {fs : List (String × JValue)} {k : String} {v : JValue}
    (h : pyGet fs k = some v) : fs.isEmpty = false := by
  cases fs with
  | nil => simp [pyGet] at h
  | cons a as => simp

/-- C1: a POST `/chat` request whose JSON body carries a non-empty string
under `message`, with the API key set (to a non-empty value, which is what
the code's own truthiness test requires for the call to happen) and the
vendor answering with a JSON body whose `candidates[0].content.parts[0]`
carries a `text` field, is answered with HTTP 200 and body
`{"response": t}` where `t` is exactly that `text` field. -/
theorem C1_relay_success (k s : String) (fs rfs c0fs ctfs p0fs : List (String × JValue))
    (cs ps : List JValue) (t : JValue) (vendor : VendorOutcome)
    (hk : k ≠ "") (hs : s ≠ "")
    (hmsg : pyGet fs "message" = some (.str s))
    (hvendor : vendor = .jsonBody (.obj rfs))
    (hcand : pyGet rfs "candidates" = some (.arr (JValue.obj c0fs :: cs)))
    (hcontent : pyGet c0fs "content" = some (.obj ctfs))
    (hparts : pyGet ctfs "parts" = some (.arr (JValue.obj p0fs :: ps)))
    (htext : pyGet p0fs "text" = some t) :
    chat (module_env (some k)) ⟨true, some (.obj fs)⟩ vendor =
      (.json 200 (.obj [("response", t)]),
       [⟨GEMINI_API_URL, gemini_payload (.str s)⟩]) := by
  subst hvendor
  have hrfs : rfs.isEmpty = false := pyGet_ne_nil hcand
  simp [chat, hmsg, py_truthy, hs, module_env, get_gemini_response, py_truthy_key, hk,
    process_result, extract_cond, extract_value, py_contains, py_index_str,
    py_index_zero, py_len, hcand, hcontent, hparts, htext, hrfs]

/-- Witness for C1 at a concrete request and vendor response. -/
theorem C1_relay_success_witness :
    chat (module_env (some "key")) ⟨true, some (.obj [("message", .str "hi")])⟩
      (.jsonBody (.obj [("candidates", .arr [ .obj [("content", .obj [("parts",
        .arr [ .obj [("text", .str "hello")] ])])] ])])) =
      (.json 200 (.obj [("response", .str "hello")]),
       [⟨GEMINI_API_URL, gemini_payload (.str "hi")⟩]) :=
  C1_relay_success "key" "hi" [("message", .str "hi")]
    [("candidates", .arr [ .obj [("content", .obj [("parts",
      .arr [ .obj [("text", .str "hello")] ])])] ])]
    [("content", .obj [("parts", .arr [ .obj [("text", .str "hello")] ])])]
    [("parts", .arr [ .obj [("text", .str "hello")] ])]
    [("text", .str "hello")] [] [] (.str "hello") _
    (by decide) (by decide) rfl rfl rfl rfl rfl rfl

/-- C2 counterexample: the request `⟨is_json, body⟩ = ⟨true, [1]⟩` is a JSON
request whose body lacks a `message` field, yet the handler answers with a
500 (`data.get` on a list raises `AttributeError`), not with the claimed
400 `{"error": "Missing 'message' in request body"}`; so the claim as stated
is false. -/
theorem C2_validation_counterexample :
    (chat (module_env (some "key")) ⟨true, some (.arr [JValue.num 1])⟩ .jsonDecodeError).1
      = .internalError ∧
    HttpResponse.internalError ≠
      .json 400 (.obj [("error", .str "Missing 'message' in request body")]) :=
  ⟨rfl, fun h => HttpResponse.noConfusion h⟩

/-- C2 amended: a request whose Content-Type does not declare JSON
(`request.is_json` false) is answered 400 `{"error": "Request must be JSON"}`,
and a request whose body parses as a JSON object without a truthy `message`
field is answered 400 `{"error": "Missing 'message' in request body"}`; in
both cases no outbound vendor call is made. (A body that parses to a
non-object value is instead a 500, and a JSON-typed body that does not parse
is Flask's own 400 page.) -/
theorem C2_validation_amended (env : ModuleEnv) (req : ChatRequest) (vendor : VendorOutcome) :
    (req.is_json = false →
      chat env req vendor = (.json 400 (.obj [("error", .str "Request must be JSON")]), [])) ∧
    (∀ fs, req.is_json = true → req.body = some (.obj fs) →
      py_truthy_opt (pyGet fs "message") = false →
      chat env req vendor =
        (.json 400 (.obj [("error", .str "Missing 'message' in request body")]), [])) := by
  constructor
  · intro h
    simp [chat, h]
  · intro fs hj hb hm
    cases hg : pyGet fs "message" with
    | none => simp [chat, hj, hb, hg]
    | some m =>
      rw [hg] at hm
      simp [py_truthy_opt] at hm
      simp [chat, hj, hb, hg, hm]

/-- Witness for C2 amended: both 400 branches at concrete requests. -/
theorem C2_validation_amended_witness :
    chat (module_env (some "key")) ⟨false, none⟩ .jsonDecodeError
      = (.json 400 (.obj [("error", .str "Request must be JSON")]), []) ∧
    chat (module_env (some "key")) ⟨true, some (.obj [])⟩ .jsonDecodeError
      = (.json 400 (.obj [("error", .str "Missing 'message' in request body")]), []) :=
  ⟨(C2_validation_amended _ _ _).1 rfl,
   (C2_validation_amended _ _ _).2 [] rfl rfl rfl⟩

/-- C3: for every prompt string `p`, when the key passes the code's
truthiness test, the one outbound POST goes to the fixed `GEMINI_API_URL`
with payload exactly `{"contents": [{"role": "user", "parts":
[{"text": p}]}]}` — the shape is fixed, only the embedded text varies. -/
theorem C3_payload_shape (key : Option String) (p : String) (vendor : VendorOutcome)
    (hkey : py_truthy_key key = true) :
    (get_gemini_response (module_env key) (.str p) vendor).2 =
      [⟨GEMINI_API_URL,
        .obj [("contents", .arr [ .obj [("role", .str "user"),
          ("parts", .arr [ .obj [("text", .str p)] ])] ])]⟩] := by
  cases vendor with
  | requestException e => simp [get_gemini_response, module_env, hkey, gemini_payload]
  | jsonDecodeError => simp [get_gemini_response, module_env, hkey, gemini_payload]
  | jsonBody result =>
    cases h : process_result result with
    | ok v => simp [get_gemini_response, module_env, hkey, gemini_payload, h]
    | error e => simp [get_gemini_response, module_env, hkey, gemini_payload, h]

/-- Witness for C3 at a concrete key, prompt and vendor outcome. -/
theorem C3_payload_shape_witness :
    (get_gemini_response (module_env (some "key")) (.str "hi") .jsonDecodeError).2 =
      [⟨GEMINI_API_URL,
        .obj [("contents", .arr [ .obj [("role", .str "user"),
          ("parts", .arr [ .obj [("text", .str "hi")] ])] ])]⟩] :=
  C3_payload_shape (some "key") "hi" .jsonDecodeError (by decide)

/-- C4 counterexample: two vendor-unreachable failures with different
exception texts produce different user-facing strings, so the
vendor-unreachable failure mode is not mapped to a fixed, input-independent
string as the claim states. -/
theorem C4_failure_modes_counterexample :
    (get_gemini_response (module_env (some "key")) (.str "hi")
      (.requestException "timeout")).1 ≠
    (get_gemini_response (module_env (some "key")) (.str "hi")
      (.requestException "refused")).1 := by
  intro h
  simp [get_gemini_response, module_env, py_truthy_key] at h

/-- C4 amended: the possible outcomes of the relay are exactly — a fixed
missing-key configuration string, a connection-failure string that embeds
the exception text, a fixed JSON-decode string, a fixed unexpected-shape
fallback string, an unexpected-exception string that embeds the exception
text, or the value extracted from a well-shaped vendor body; the connection
and unexpected-exception messages are not fixed strings. -/
theorem C4_failure_modes_amended (env : ModuleEnv) (prompt : JValue) (vendor : VendorOutcome) :
    (get_gemini_response env prompt vendor).1 =
        .str "Error: Backend configuration issue. Gemini API Key is missing."
    ∨ (∃ e, vendor = .requestException e ∧ (get_gemini_response env prompt vendor).1 =
        .str ("An error occurred while connecting to the AI service: " ++ e))
    ∨ (get_gemini_response env prompt vendor).1 =
        .str "An error occurred while processing the AI's response."
    ∨ (get_gemini_response env prompt vendor).1 =
        .str "Sorry, I couldn't get a valid response from the AI. Please try again."
    ∨ (∃ e, (get_gemini_response env prompt vendor).1 =
        .str ("An unexpected error occurred: " ++ e))
    ∨ (∃ result v, vendor = .jsonBody result ∧ process_result result = .ok v ∧
        (get_gemini_response env prompt vendor).1 = v) := by
  by_cases hkey : py_truthy_key env.GEMINI_API_KEY = false
  · left
    simp [get_gemini_response, hkey]
  · rw [Bool.not_eq_false] at hkey
    cases vendor with
    | requestException e =>
      exact Or.inr (Or.inl ⟨e, rfl, by simp [get_gemini_response, hkey]⟩)
    | jsonDecodeError =>
      exact Or.inr (Or.inr (Or.inl (by simp [get_gemini_response, hkey])))
    | jsonBody result =>
      cases h : process_result result with
      | ok v =>
        exact Or.inr (Or.inr (Or.inr (Or.inr (Or.inr
          ⟨result, v, rfl, h, by simp [get_gemini_response, hkey, h]⟩))))
      | error e =>
        exact Or.inr (Or.inr (Or.inr (Or.inr (Or.inl
          ⟨e, by simp [get_gemini_response, hkey, h]⟩))))

/-- C5: with the key set, every failure of the outbound call or of the
parsing and unwrapping of the vendor response — connection error or HTTP
error status (`RequestException`), JSON decode error, or any other exception
raised while unwrapping — makes `get_gemini_response` return an error string
to its caller instead of letting the exception escape. -/
theorem C5_exceptions_handled (key : Option String) (prompt : JValue)
    (hkey : py_truthy_key key = true) :
    (∀ e, (get_gemini_response (module_env key) prompt (.requestException e)).1 =
        .str ("An error occurred while connecting to the AI service: " ++ e)) ∧
    ((get_gemini_response (module_env key) prompt .jsonDecodeError).1 =
        .str "An error occurred while processing the AI's response.") ∧
    (∀ result e, process_result result = .error e →
        (get_gemini_response (module_env key) prompt (.jsonBody result)).1 =
          .str ("An unexpected error occurred: " ++ e)) := by
  refine ⟨fun e => ?_, ?_, fun result e h => ?_⟩ <;>
    simp [get_gemini_response, module_env, hkey, *]

/-- Witness for C5: a connection failure and an unwrapping exception, both
mapped to strings at concrete inputs. -/
theorem C5_exceptions_handled_witness :
    (get_gemini_response (module_env (some "key")) (.str "hi")
      (.requestException "timeout")).1 =
      .str ("An error occurred while connecting to the AI service: " ++ "timeout") ∧
    (get_gemini_response (module_env (some "key")) (.str "hi")
      (.jsonBody (.obj [("candidates", .num 1)]))).1 =
      .str ("An unexpected error occurred: " ++ "object of type 'int' has no len()") :=
  ⟨(C5_exceptions_handled (some "key") (.str "hi") (by decide)).1 "timeout",
   (C5_exceptions_handled (some "key") (.str "hi") (by decide)).2.2 _ _ rfl⟩

/-- The relay performs exactly one outbound call when the key is truthy and
none otherwise, whatever the vendor outcome. -/
theorem gemini_calls (env : ModuleEnv) (prompt : JValue) (vendor : VendorOutcome) :
    (get_gemini_response env prompt vendor).2 =
      if py_truthy_key env.GEMINI_API_KEY then
        [⟨env.GEMINI_API_URL, gemini_payload prompt⟩]
      else [] := by
  by_cases hkey : py_truthy_key env.GEMINI_API_KEY = false
  · simp [get_gemini_response, hkey]
  · rw [Bool.not_eq_false] at hkey
    cases vendor with
    | requestException e => simp [get_gemini_response, hkey]
    | jsonDecodeError => simp [get_gemini_response, hkey]
    | jsonBody result =>
      cases h : process_result result with
      | ok v => simp [get_gemini_response, hkey, h]
      | error e => simp [get_gemini_response, hkey, h]

/-- C6 counterexample: a request rejected by validation (here: Content-Type
not JSON) is handled with zero outbound calls, so "exactly one outbound call
per inbound request" is false as stated. -/
theorem C6_one_call_counterexample :
    (chat (module_env (some "key")) ⟨false, none⟩ .jsonDecodeError).2 = [] ∧
    ((chat (module_env (some "key")) ⟨false, none⟩ .jsonDecodeError).2.length ≠ 1) :=
  ⟨rfl, by decide⟩

/-- C6 amended: handling a `/chat` request performs at most one outbound
call, and exactly one precisely when the request passes validation (JSON
Content-Type, object body with a truthy `message`) and the API key is
truthy. -/
theorem C6_at_most_one_call (env : ModuleEnv) (req : ChatRequest) (vendor : VendorOutcome) :
    (chat env req vendor).2.length ≤ 1 ∧
    ((chat env req vendor).2.length = 1 ↔
      (req.is_json = true ∧ ∃ fs m, req.body = some (.obj fs) ∧
        pyGet fs "message" = some m ∧ py_truthy m = true ∧
        py_truthy_key env.GEMINI_API_KEY = true)) := by
  obtain ⟨ij, body⟩ := req
  cases ij with
  | false => simp [chat]
  | true =>
    cases body with
    | none => simp [chat]
    | some data =>
      cases data with
      | null => simp [chat]
      | bool b => simp [chat]
      | num n => simp [chat]
      | str s => simp [chat]
      | arr xs => simp [chat]
      | obj fs =>
        cases hg : pyGet fs "message" with
        | none => simp [chat, hg]
        | some m =>
          by_cases hm : py_truthy m = false
          · simp [chat, hg, hm]
          · rw [Bool.not_eq_false] at hm
            by_cases hkey : py_truthy_key env.GEMINI_API_KEY = false
            · simp [chat, hg, hm, gemini_calls, hkey]
            · rw [Bool.not_eq_false] at hkey
              simp [chat, hg, hm, gemini_calls, hkey]

/-- C7: handling a request leaves the module-level bindings unchanged, and
the response is a function of the configuration bindings, the inbound
request and the vendor outcome alone. -/
theorem C7_stateless (st : ModuleEnv) (req : ChatRequest) (vendor : VendorOutcome) :
    (chat_step st req vendor).1 = st ∧
    (∀ st' : ModuleEnv, st'.GEMINI_API_KEY = st.GEMINI_API_KEY →
      st'.GEMINI_API_URL = st.GEMINI_API_URL →
      (chat_step st' req vendor).2 = (chat_step st req vendor).2) := by
  refine ⟨rfl, fun st' hk hu => ?_⟩
  obtain ⟨k, u⟩ := st
  obtain ⟨k', u'⟩ := st'
  simp only at hk hu
  subst hk
  subst hu
  rfl

/-- Witness for C7 at a concrete state, request and vendor outcome. -/
theorem C7_stateless_witness :
    (chat_step ⟨some "key", GEMINI_API_URL⟩
      ⟨true, some (.obj [("message", .str "hi")])⟩ .jsonDecodeError).1
      = ⟨some "key", GEMINI_API_URL⟩ ∧
    (chat_step ⟨some "key", GEMINI_API_URL⟩
      ⟨true, some (.obj [("message", .str "hi")])⟩ .jsonDecodeError).2
      = (chat_step ⟨some "key", GEMINI_API_URL⟩
      ⟨true, some (.obj [("message", .str "hi")])⟩ .jsonDecodeError).2 :=
  ⟨(C7_stateless _ _ _).1, (C7_stateless _ _ _).2 _ rfl rfl⟩

/-- C8 counterexample: the vendor body
`{"candidates": [{"content": {"parts": [{"note": "x"}]}}]}` parses as JSON
and lacks the nested `candidates[0].content.parts[0].text` path, yet the
relay answers with the unexpected-error string for the KeyError, not with
the fixed fallback string the claim names. -/
theorem C8_fallback_counterexample :
    (get_gemini_response (module_env (some "key")) (.str "hi")
      (.jsonBody (.obj [("candidates", .arr [ .obj [("content",
        .obj [("parts", .arr [ .obj [("note", .str "x")] ])])] ])]))).1
      = .str "An unexpected error occurred: 'text'" ∧
    JValue.str "An unexpected error occurred: 'text'" ≠
      .str "Sorry, I couldn't get a valid response from the AI. Please try again." := by
  refine ⟨rfl, fun h => ?_⟩
  rw [JValue.str.injEq] at h
  exact absurd h (by decide)

/-- C8 amended: a JSON vendor body for which the shape test fails without
raising gets the fixed fallback string; in particular the cases the claim
enumerates — object body with no `candidates` key, empty `candidates` list,
first candidate object with no `content` key, content object with no `parts`
key, and empty `parts` list — all do. (A body that passes the shape test but
whose `parts[0]` lacks the `text` key instead raises KeyError, answered with
the unexpected-error string.) -/
theorem C8_fallback_amended (key : Option String) (prompt : JValue)
    (hkey : py_truthy_key key = true) :
    (∀ rfs, pyGet rfs "candidates" = none →
      (get_gemini_response (module_env key) prompt (.jsonBody (.obj rfs))).1 =
        .str "Sorry, I couldn't get a valid response from the AI. Please try again.") ∧
    (∀ rfs, pyGet rfs "candidates" = some (.arr []) →
      (get_gemini_response (module_env key) prompt (.jsonBody (.obj rfs))).1 =
        .str "Sorry, I couldn't get a valid response from the AI. Please try again.") ∧
    (∀ rfs c0fs cs, pyGet rfs "candidates" = some (.arr (JValue.obj c0fs :: cs)) →
      pyGet c0fs "content" = none →
      (get_gemini_response (module_env key) prompt (.jsonBody (.obj rfs))).1 =
        .str "Sorry, I couldn't get a valid response from the AI. Please try again.") ∧
    (∀ rfs c0fs cs ctfs, pyGet rfs "candidates" = some (.arr (JValue.obj c0fs :: cs)) →
      pyGet c0fs "content" = some (.obj ctfs) → pyGet ctfs "parts" = none →
      (get_gemini_response (module_env key) prompt (.jsonBody (.obj rfs))).1 =
        .str "Sorry, I couldn't get a valid response from the AI. Please try again.") ∧
    (∀ rfs c0fs cs ctfs, pyGet rfs "candidates" = some (.arr (JValue.obj c0fs :: cs)) →
      pyGet c0fs "content" = some (.obj ctfs) → pyGet ctfs "parts" = some (.arr []) →
      (get_gemini_response (module_env key) prompt (.jsonBody (.obj rfs))).1 =
        .str "Sorry, I couldn't get a valid response from the AI. Please try again.") := by
  refine ⟨fun rfs hcand => ?_, fun rfs hcand => ?_, fun rfs c0fs cs hcand hcontent => ?_,
    fun rfs c0fs cs ctfs hcand hcontent hparts => ?_,
    fun rfs c0fs cs ctfs hcand hcontent hparts => ?_⟩
  · cases rfs with
    | nil =>
      simp [get_gemini_response, module_env, hkey, process_result, extract_cond, py_truthy]
    | cons a as =>
      simp [get_gemini_response, module_env, hkey, process_result, extract_cond,
        py_truthy, py_contains, hcand]
  · have hrfs : rfs.isEmpty = false := pyGet_ne_nil hcand
    simp [get_gemini_response, module_env, hkey, process_result, extract_cond,
      py_truthy, py_contains, py_index_str, py_len, hcand, hrfs]
  · have hrfs : rfs.isEmpty = false := pyGet_ne_nil hcand
    simp [get_gemini_response, module_env, hkey, process_result, extract_cond,
      py_truthy, py_contains, py_index_str, py_index_zero, py_len, hcand, hcontent, hrfs]
  · have hrfs : rfs.isEmpty = false := pyGet_ne_nil hcand
    simp [get_gemini_response, module_env, hkey, process_result, extract_cond,
      py_truthy, py_contains, py_index_str, py_index_zero, py_len,
      hcand, hcontent, hparts, hrfs]
  · have hrfs : rfs.isEmpty = false := pyGet_ne_nil hcand
    simp [get_gemini_response, module_env, hkey, process_result, extract_cond,
      py_truthy, py_contains, py_index_str, py_index_zero, py_len,
      hcand, hcontent, hparts, hrfs]

/-- Witness for C8 amended: the empty-candidates case at concrete inputs. -/
theorem C8_fallback_amended_witness :
    (get_gemini_response (module_env (some "key")) (.str "hi")
      (.jsonBody (.obj [("candidates", .arr [])]))).1 =
      .str "Sorry, I couldn't get a valid response from the AI. Please try again." :=
  (C8_fallback_amended (some "key") (.str "hi") (by decide)).2.1
    [("candidates", .arr [])] rfl

/-- C9: a JSON object body whose `message` field is present but falsy — the
empty string, 0, false, null, the empty list or the empty object — is
rejected exactly as a missing field is: 400 with the missing-message error
and no outbound call. -/
theorem C9_falsy_message_rejected (env : ModuleEnv) (vendor : VendorOutcome) :
    (∀ (fs : List (String × JValue)) (v : JValue), pyGet fs "message" = some v →
      py_truthy v = false →
      chat env ⟨true, some (.obj fs)⟩ vendor =
        (.json 400 (.obj [("error", .str "Missing 'message' in request body")]), [])) ∧
    py_truthy (.str "") = false ∧ py_truthy (.num 0) = false ∧
    py_truthy (.bool false) = false ∧ py_truthy .null = false ∧
    py_truthy (.arr []) = false ∧ py_truthy (.obj []) = false := by
  refine ⟨fun fs v hg hv => ?_, rfl, rfl, rfl, rfl, rfl, rfl⟩
  simp [chat, hg, hv]

/-- Witness for C9: the empty-string message at a concrete request. -/
theorem C9_falsy_message_rejected_witness :
    chat (module_env (some "key")) ⟨true, some (.obj [("message", .str "")])⟩
      .jsonDecodeError =
      (.json 400 (.obj [("error", .str "Missing 'message' in request body")]), []) :=
  (C9_falsy_message_rejected _ _).1 [("message", .str "")] (.str "") rfl rfl

/-- C10: a JSON object body with a truthy `message` is always answered with
HTTP 200, the relay's answer — error string or extracted text alike —
wrapped as `{"response": ...}`; relay failures are never surfaced as an HTTP
error status. -/
theorem C10_always_200 (env : ModuleEnv) (vendor : VendorOutcome)
    (fs : List (String × JValue)) (m : JValue)
    (hmsg : pyGet fs "message" = some m) (hm : py_truthy m = true) :
    (chat env ⟨true, some (.obj fs)⟩ vendor).1 =
      .json 200 (.obj [("response", (get_gemini_response env m vendor).1)]) := by
  simp [chat, hmsg, hm]

/-- Witness for C10: with the key unset the relay fails, and the failure
text still travels in a 200 response. -/
theorem C10_always_200_witness :
    (chat (module_env none) ⟨true, some (.obj [("message", .str "hi")])⟩
      .jsonDecodeError).1 =
      .json 200 (.obj [("response",
        .str "Error: Backend configuration issue. Gemini API Key is missing.")]) :=
  (C10_always_200 (module_env none) .jsonDecodeError
    [("message", .str "hi")] (.str "hi") rfl rfl).trans rfl

end AgastyaAI
